import Mathlib

/-!
Verification of the KTP OCR field-extraction core
(`src/app/services/ktp_extractor.py` and its data model in
`src/app/models.py`), as a shallow embedding in Lean 4.

Conventions of the embedding:
* Python integers are `Int` (coordinates) or `Nat` (distances, lengths).
* Fallible code is modelled with `Option` / `Except Unit`; the only raise
  point in the core is `np.min` applied to an empty distance list, which
  raises `ValueError` in Python and is modelled as `Except.error ()`.
* The mutable instance attribute `self.max_x` is threaded explicitly as a
  state value of type `Int` (input state, output state).
* Python string methods are modelled by the corresponding Lean `String`
  operations, which agree with Python on the ASCII fragment relevant here
  (lower, upper, strip, replace, split, isdigit, isalpha, isspace).
* The float computation `calc_degree` (built on `math.atan2`) is used only
  inside the boolean co-linearity test of the value collector; that test is
  abstracted as an explicit parameter `angleOk : Token → Token → Bool`
  giving the verdict of the angle comparison for an (anchor, candidate)
  pair.  All theorems below are proved for every such verdict function, so
  they hold in particular for the concrete floating-point one.
-/

set_option maxRecDepth 8192

deriving instance DecidableEq for Except

namespace KTPOCR

/-! ### Python string primitives

The Lean core string functions (`String.map`, `String.replace`, …) are
defined by well-founded recursion over byte positions and do not reduce
inside the kernel, so the Python string methods used by the source are
embedded here as structurally recursive functions over the character
list of the string.  They agree with the Python methods on the ASCII
fragment the extractor works in. -/

/-- Python `str.lower()`: basic-latin case mapping, character by character. -/
def pyLower (s : String) : String := ⟨s.data.map Char.toLower⟩

/-- Python `str.upper()`: basic-latin case mapping, character by character. -/
def pyUpper (s : String) : String := ⟨s.data.map Char.toUpper⟩

/-- Python truthiness of a string: only the empty string is falsy. -/
def pyIsEmpty (s : String) : Bool := s.data.isEmpty

/-- Python `str.strip()`: drop whitespace from both ends. -/
def pyTrim (s : String) : String :=
  ⟨((s.data.dropWhile Char.isWhitespace).reverse.dropWhile Char.isWhitespace).reverse⟩

/-- One step list of `str.replace(pat, repl)` with a nonempty pattern (the
source only replaces the nonempty literals `": "`, `":"`, `" "`, `"/"`
and `"-"`).  The fuel starts at the length of the list; every step
consumes at least one character. -/
def replList (pat repl : List Char) : Nat → List Char → List Char
  | 0, cs => cs
  | _ + 1, [] => []
  | n + 1, c :: cs =>
      if !pat.isEmpty && pat.isPrefixOf (c :: cs) then
        repl ++ replList pat repl n ((c :: cs).drop pat.length)
      else c :: replList pat repl n cs

/-- Python `str.replace(pat, repl)` for a nonempty pattern: replace every
non-overlapping occurrence, scanning left to right. -/
def pyReplace (s pat repl : String) : String :=
  ⟨replList pat.data repl.data s.data.length s.data⟩

/-- Worker for `str.split(sep)` with a nonempty separator. -/
def splitList (sep : List Char) : Nat → List Char → List Char → List (List Char)
  | 0, acc, cs => [acc.reverse ++ cs]
  | _ + 1, acc, [] => [acc.reverse]
  | n + 1, acc, c :: cs =>
      if sep.isPrefixOf (c :: cs) then
        acc.reverse :: splitList sep n [] ((c :: cs).drop sep.length)
      else splitList sep n (c :: acc) cs

/-- Python `str.split(sep)` for a nonempty separator: like Python, the result is
never empty, and splitting the empty string yields `[""]`. -/
def pySplit (s sep : String) : List String :=
  (splitList sep.data (s.data.length + 1) [] s.data).map (fun cs => ⟨cs⟩)

/-- Python `sep.join(xs)`. -/
def pyJoin (sep : String) : List String → String
  | [] => ""
  | x :: xs => xs.foldl (fun acc y => acc ++ sep ++ y) x

/-! ### Fuzzy matcher: `levenshtein` (ktp_extractor.py lines 8-29)

The source computes the distance row by row with numpy slice assignments.
Each slice assignment materialises its right-hand side before writing, so
the third update `current_row[1:] = minimum(current_row[1:],
current_row[0:-1] + 1)` reads the values produced by the second update,
not the values it is itself writing.  The embedding reproduces exactly
that evaluation order. -/

/-- Line 20: `current_row = previous_row + 1`. -/
def levRow1 (prev : List Nat) : List Nat := prev.map (· + 1)

/-- Elementwise ternary zip, truncating at the shortest list. -/
def zipW3 {α β γ δ : Type} (f : α → β → γ → δ) : List α → List β → List γ → List δ
  | a :: as, b :: bs, c :: cs => f a b c :: zipW3 f as bs cs
  | _, _, _ => []

/-- Lines 21-23: `current_row[1:] = minimum(current_row[1:], previous_row[:-1] + (target != s))`: position `j ≥ 1` of the row becomes the minimum of its
current value and `previous_row[j-1]` plus the substitution cost. -/
def levStep2 (s : Char) (target : List Char) (prev cur : List Nat) : List Nat :=
  match cur with
  | [] => []
  | c0 :: rest =>
      c0 :: zipW3 (fun cj pj tj => min cj (pj + (if tj = s then 0 else 1))) rest prev target

/-- Lines 24-26: `current_row[1:] = minimum(current_row[1:], current_row[0:-1] + 1)`: numpy materialises `current_row[0:-1] + 1` from the values
left by `levStep2` before assigning, so no deletion cost propagates more
than one cell inside a single row. -/
def levStep3 (cur : List Nat) : List Nat :=
  match cur with
  | [] => []
  | c0 :: rest => c0 :: List.zipWith (fun cj cjm1 => min cj (cjm1 + 1)) rest cur.dropLast

/-- The row loop of lines 18-27: start from `arange(len(target)+1)` and fold
the three updates over the source characters. -/
def levFold (target source : List Char) : List Nat :=
  source.foldl (fun prev s => levStep3 (levStep2 s target prev (levRow1 prev)))
    (List.range (target.length + 1))

/-- Body of `levenshtein` once `len(source) >= len(target)` holds
(lines 12-29). -/
def levCore (source target : List Char) : Nat :=
  if target.length = 0 then source.length
  else (levFold target source).getLastD 0

/-- The function `levenshtein(source, target)` (lines 8-29).  The source recurses once to
swap its arguments when `len(source) < len(target)`; after the swap the
guard fails, so the recursion is inlined as a single conditional. -/
def levenshtein (source target : String) : Nat :=
  if source.length < target.length then levCore target.data source.data
  else levCore source.data target.data

/-! ### Data model -/

/-- A normalized geometric token (the dictionaries built by
`convert_format`, ktp_extractor.py lines 64-76): a label and the four
corner points, plus the derived signed width and height. -/
structure Token where
  label : String
  x1 : Int
  y1 : Int
  x2 : Int
  y2 : Int
  x3 : Int
  y3 : Int
  x4 : Int
  y4 : Int
  w : Int
  h : Int
deriving DecidableEq, Inhabited

/-- One vertex of a bounding polygon in the provider response; each of the
keys `x` and `y` may be absent (the source reads them with a dictionary
get whose default is 0). -/
structure Vertex where
  x : Option Int
  y : Option Int
deriving DecidableEq, Inhabited

/-- The `boundingPoly` object of a provider entry; `vertices := none`
models a missing `vertices` key. -/
structure BoundingPoly where
  vertices : Option (List Vertex)
deriving DecidableEq, Inhabited

/-- One entry of the provider `textAnnotations` list; `boundingPoly := none`
models a missing `boundingPoly` key. -/
structure AnnEntry where
  description : String
  boundingPoly : Option BoundingPoly
deriving DecidableEq, Inhabited

/-- The provider response dictionary; `textAnnotations := none` models a
response without the `textAnnotations` key. -/
structure TextResponse where
  textAnnotations : Option (List AnnEntry)
deriving DecidableEq, Inhabited

/-- The 17-field output record `KTPData` (models.py lines 5-22); every
field defaults to `None`.  Dates are triples of numbers (year, month,
day) as produced by the date parser below. -/
structure PyDate where
  year : Nat
  month : Nat
  day : Nat
deriving DecidableEq, Inhabited

structure KTPData where
  nik : Option String := none
  nama : Option String := none
  tempat_lahir : Option String := none
  tanggal_lahir : Option PyDate := none
  jenis_kelamin : Option String := none
  golongan_darah : Option String := none
  alamat : Option String := none
  rt_rw : Option String := none
  kelurahan_desa : Option String := none
  kecamatan : Option String := none
  agama : Option String := none
  status_perkawinan : Option String := none
  pekerjaan : Option String := none
  kewarganegaraan : Option String := none
  berlaku_hingga : Option String := none
  provinsi : Option String := none
  kota : Option String := none
deriving DecidableEq, Inhabited

/-! ### Token normalizer: `convert_format` (ktp_extractor.py lines 53-79) -/

/-- Build the token dictionary of lines 64-76 from a vertex list already
known to have at least four entries; each coordinate is read with a
default of `0` for a missing key. -/
def tokenOfEntry (label : String) (vs : List Vertex) : Token :=
  let v0 := vs.getD 0 default
  let v1 := vs.getD 1 default
  let v2 := vs.getD 2 default
  let v3 := vs.getD 3 default
  let x1 := v0.x.getD 0
  let y1 := v0.y.getD 0
  let x2 := v1.x.getD 0
  let y2 := v1.y.getD 0
  let x3 := v2.x.getD 0
  let y3 := v2.y.getD 0
  let x4 := v3.x.getD 0
  let y4 := v3.y.getD 0
  { label := label, x1 := x1, y1 := y1, x2 := x2, y2 := y2,
    x3 := x3, y3 := y3, x4 := x4, y4 := y4,
    w := x3 - x1, h := y3 - y1 }

/-- The method `convert_format` (lines 53-79): every entry that carries a
`boundingPoly` with a `vertices` list of length at least 4 becomes a
token, in provider order; malformed entries are skipped; a missing
`textAnnotations` key yields the empty list.  Note that no entry is
excluded for being the whole-image aggregate: the first provider entry is
kept like any other well-formed entry. -/
def convert_format (resp : TextResponse) : List Token :=
  match resp.textAnnotations with
  | none => []
  | some anns =>
      anns.filterMap (fun t =>
        match t.boundingPoly with
        | none => none
        | some poly =>
            match poly.vertices with
            | none => none
            | some vs =>
                if vs.length < 4 then none
                else some (tokenOfEntry t.description vs))

/-! ### Label locator and value collector (`get_attribute_ktp`, lines 86-216) -/

/-- Model of `np.min` over a nonempty list of naturals (the empty case never reaches
this function: the source raises there, modelled separately). -/
def listMin : List Nat → Nat
  | [] => 0
  | x :: xs => xs.foldl min x

/-- Model of `max(...)` over a nonempty list of integers (line 138). -/
def listMaxInt : List Int → Int
  | [] => 0
  | x :: xs => xs.foldl max x

def argminAux {α : Type} [LinearOrder α] : List α → Nat → Nat → α → Nat
  | [], _, bestIdx, _ => bestIdx
  | x :: xs, i, bestIdx, bestVal =>
      if x < bestVal then argminAux xs (i + 1) i x
      else argminAux xs (i + 1) bestIdx bestVal

/-- Model of `np.argmin`: index of the first occurrence of the minimum. -/
def argminL {α : Type} [LinearOrder α] : List α → Nat
  | [] => 0
  | x :: xs => argminAux xs 1 0 x

/-- The province-name leakage guard of line 91-92: for the `nama` field,
drop every token whose lowercased label is exactly `jawa` or `nusa`. -/
def namaFilter (field_name : String) (ls_word : List Token) : List Token :=
  if field_name = "nama" then
    ls_word.filter (fun w => !(pyLower w.label == "jawa" || pyLower w.label == "nusa"))
  else ls_word

/-- Lines 95-104: distances of the keyword to every lowercased label, and,
when the keyword contains a slash, the elementwise minimum with the
distances to the space-joined alternate form. -/
def distList (field_keywords : String) (ls_word : List Token) : List Nat :=
  let new_ls_word := ls_word.map (fun w => pyLower w.label)
  let ls_dist := new_ls_word.map (fun w => levenshtein field_keywords w)
  if field_keywords.data.contains '/' then
    let alt := pyReplace field_keywords "/" " "
    let ls_dist_alt := new_ls_word.map (fun w => levenshtein alt w)
    List.zipWith min ls_dist ls_dist_alt
  else ls_dist

/-- The anchor token at the position of the first minimal distance
(lines 112-113). -/
def anchorToken (field_keywords : String) (ls_word : List Token) : Token :=
  ls_word.getD (argminL (distList field_keywords ls_word)) default

/-- Lines 126-134, 149-154, 174-177, 201-204: compute the distances of one
keyword to the lowercased labels, and when the list is nonempty and its
minimum is within the tolerance, remove the token at the first minimum. -/
def popFuzzy (kw : String) (tol : Nat) (vw : List Token) : List Token :=
  let d := vw.map (fun v => levenshtein kw (pyLower v.label))
  if !d.isEmpty && listMin d ≤ tol then vw.eraseIdx (argminL d) else vw

/-- The for-loop of lines 149-154: try the keywords in order and stop after
the first one that removes a token. -/
def popFirstFuzzy (tol : Nat) : List String → List Token → List Token
  | [], vw => vw
  | k :: ks, vw =>
      let d := vw.map (fun v => levenshtein k (pyLower v.label))
      if !d.isEmpty && listMin d ≤ tol then vw.eraseIdx (argminL d)
      else popFirstFuzzy tol ks vw

/-- The value collector (lines 118-134): keep the tokens of the same
vertical band (`abs(y - y1) < 300`) whose anchor-to-candidate angle passes
the 3-degree co-linearity test (abstracted as `angleOk`), drop tokens
whose label is empty after removing spaces and colons, then remove at most
one token fuzzy-matching `gol.` and at most one matching `darah`. -/
def collectValues (angleOk : Token → Token → Bool) (ls_word : List Token)
    (anchor : Token) : List Token :=
  let v1 := ls_word.filter (fun ww =>
    ((anchor.y1 - ww.y1).natAbs < 300) && angleOk anchor ww)
  let v2 := v1.filter (fun val =>
    !pyIsEmpty (pyReplace (pyReplace val.label " " "") ":" ""))
  popFuzzy "darah" 1 (popFuzzy "gol." 1 v2)

/-- Result of one `get_attribute_ktp` body before the kota retry is
resolved: the `ValueError` raised by `np.min([])`, the not-found return of
line 110, or a value (line 88 and the field branches). -/
inductive AttrResult where
  | raiseEmpty : AttrResult
  | labelNotFound : AttrResult
  | value : Option String → AttrResult
deriving DecidableEq

/-- The generic tail of the resolver (lines 215-216): join the labels with
single spaces, strip, and turn an empty result into `None`. -/
def genericJoin (vw : List Token) : AttrResult :=
  let fv := pyTrim (pyJoin " " (vw.map (fun v => v.label)))
  if pyIsEmpty fv then .value none else .value (some fv)

/-- The `jenis_kelamin` scan of lines 156-167. -/
def jkScan : List Token → Option String
  | [] => none
  | v :: vs =>
      let l := pyLower v.label
      if levenshtein "laki-laki" l ≤ 2 then some "LAKI-LAKI"
      else if levenshtein "laki" l ≤ 1 then some "LAKI-LAKI"
      else if levenshtein "wanita" l ≤ 2 then some "PEREMPUAN"
      else if levenshtein "perempuan" l ≤ 2 then some "PEREMPUAN"
      else jkScan vs

/-- The `kewarganegaraan` branch of lines 180-188: whenever the distance
list against `wni` is nonempty (that is, whenever any value token exists)
the result is `WNI`; the leftmost-label fallback of lines 184-187 is kept
as written although it is unreachable. -/
def kwnResolve (vw : List Token) : AttrResult :=
  let d := vw.map (fun v => levenshtein "wni" (pyLower v.label))
  if !d.isEmpty then .value (some "WNI")
  else
    let xlocs := vw.map (fun v => v.x1)
    if !xlocs.isEmpty then .value (some ((vw.getD (argminL xlocs) default).label))
    else .value none

/-- The `status_perkawinan` branch of lines 190-198. -/
def spResolve (vw : List Token) : AttrResult :=
  let xlocs := vw.map (fun v => v.x1)
  if !xlocs.isEmpty then
    let fv := (vw.getD (argminL xlocs) default).label
    if levenshtein "belum" (pyLower fv) ≤ 1 then .value (some "BELUM KAWIN")
    else .value (some fv)
  else .value none

/-- The `berlaku_hingga` branch of lines 200-212. -/
def bhResolve (vw0 : List Token) : AttrResult :=
  let vw := popFuzzy "hingga" 2 vw0
  let xlocs := vw.map (fun v => v.x1)
  if !xlocs.isEmpty then
    let fv := (vw.getD (argminL xlocs) default).label
    if levenshtein "seumur" (pyLower fv) ≤ 2 then .value (some "SEUMUR HIDUP")
    else .value (some fv)
  else .value none

/-- The body of `get_attribute_ktp` (lines 86-216) without the kota retry
of lines 108-109, which is resolved by the wrapper below.  The pair
returned is (result, new `self.max_x`).  `AttrResult.raiseEmpty` models
the `ValueError` of `np.min` on the empty distance list that the `nama`
pre-filter can produce from a nonempty input. -/
def getAttrCore (angleOk : Token → Token → Bool) (maxX : Int)
    (ls_word0 : List Token) (field_name field_keywords : String)
    (typo_tolerance : Nat) : AttrResult × Int :=
  if ls_word0.isEmpty then (.value none, maxX)
  else
    let ls_word := namaFilter field_name ls_word0
    let ls_dist := distList field_keywords ls_word
    if ls_dist.isEmpty then (.raiseEmpty, maxX)
    else if typo_tolerance < listMin ls_dist then (.labelNotFound, maxX)
    else
      let anchor := ls_word.getD (argminL ls_dist) default
      let value_words := collectValues angleOk ls_word anchor
      if field_name = "nik" then
        let maxX' := if value_words.isEmpty then maxX
          else listMaxInt (value_words.map (fun v => v.x2))
        (genericJoin value_words, maxX')
      else if field_name = "kota" then
        let field_value := pyTrim (pyJoin " " (value_words.map (fun v => v.label)))
        if field_keywords = "kabupaten" then
          (.value (some ("KABUPATEN " ++ field_value)), maxX)
        else (.value (some ("KOTA " ++ field_value)), maxX)
      else if field_name = "ttl" then
        (genericJoin (popFirstFuzzy 2 ["lahir", "tempat/tgl", "tempat", "tgl"] value_words), maxX)
      else if field_name = "jenis_kelamin" then (.value (jkScan value_words), maxX)
      else if field_name = "gol_darah" then
        (.value (((value_words.filter (fun v => v.label.length ≤ 3)).head?).map (fun v => v.label)), maxX)
      else if field_name = "pekerjaan" then
        let vw := popFuzzy "kartu" 2 value_words
        (genericJoin (vw.filter (fun v => v.x1 ≤ maxX)), maxX)
      else if field_name = "kewarganegaraan" then (kwnResolve value_words, maxX)
      else if field_name = "status_perkawinan" then (spResolve value_words, maxX)
      else if field_name = "berlaku_hingga" then (bhResolve value_words, maxX)
      else (genericJoin value_words, maxX)

/-- The method `get_attribute_ktp` (lines 86-216) with the single kota retry of
lines 106-110 unfolded: when the minimal distance exceeds the tolerance and
the field is `kota` with a keyword other than `kota`, the body is run once
more with keyword `kota` and tolerance `1`; a second failure returns
`None` (the retried call reaches line 110).  `Except.error ()` models the
`ValueError` escaping the function. -/
def get_attribute_ktp (angleOk : Token → Token → Bool) (maxX : Int)
    (ls_word : List Token) (field_name field_keywords : String)
    (typo_tolerance : Nat) : Except Unit (Option String) × Int :=
  match getAttrCore angleOk maxX ls_word field_name field_keywords typo_tolerance with
  | (.raiseEmpty, m) => (.error (), m)
  | (.value v, m) => (.ok v, m)
  | (.labelNotFound, m) =>
      if field_name = "kota" ∧ field_keywords ≠ "kota" then
        match getAttrCore angleOk m ls_word field_name "kota" 1 with
        | (.raiseEmpty, m') => (.error (), m')
        | (.value v, m') => (.ok v, m')
        | (.labelNotFound, m') => (.ok none, m')
      else (.ok none, m)

/-! ### Date parser: `extract_date` (lines 218-242) -/

def digitVal (c : Char) : Nat := c.toNat - 48

def num2 (a b : Char) : Nat := digitVal a * 10 + digitVal b

def num4 (a b c d : Char) : Nat :=
  ((digitVal a * 10 + digitVal b) * 10 + digitVal c) * 10 + digitVal d

/-- Gregorian leap-year rule used by `datetime`. -/
def isLeap (y : Nat) : Bool := y % 4 = 0 && (y % 100 ≠ 0 || y % 400 = 0)

def daysInMonth (y m : Nat) : Nat :=
  if m = 2 then (if isLeap y then 29 else 28)
  else if m = 4 ∨ m = 6 ∨ m = 9 ∨ m = 11 then 30
  else 31

/-- Model of `datetime.strptime` with format `%d-%m-%Y` on numeric components: it succeeds
exactly when the components form a real calendar date with a year in the
`datetime` range, and raises `ValueError` (here `none`) otherwise. -/
def strptimeDMY (d m y : Nat) : Option PyDate :=
  if 1 ≤ y ∧ y ≤ 9999 ∧ 1 ≤ m ∧ m ≤ 12 ∧ 1 ≤ d ∧ d ≤ daysInMonth y m then
    some ⟨y, m, d⟩
  else none

/-- Match the tail `\d{1,2}-\d{4}` of the date pattern at the head of the
character list, with the greedy preference of the regex engine: two digits
for the month when possible.  Backtracking from the two-digit month to the
one-digit month can never succeed (the rejected second character is a
digit, never the required dash), so each alternative is decided locally. -/
def parse4Y : List Char → Option Nat
  | a :: b :: c :: d :: _ =>
      if a.isDigit && b.isDigit && c.isDigit && d.isDigit then some (num4 a b c d)
      else none
  | _ => none

def parseMY : List Char → Option (Nat × Nat)
  | a :: b :: rest =>
      if a.isDigit then
        if b.isDigit then
          match rest with
          | '-' :: rest2 => (parse4Y rest2).map (fun y => (num2 a b, y))
          | _ => none
        else if b = '-' then (parse4Y rest).map (fun y => (digitVal a, y))
        else none
      else none
  | _ => none

/-- Match the regex `\d{1,2}-\d{1,2}-\d{4}` (line 224) at the head of the
character list, returning the numeric (day, month, year) triple that
`strptime` would read from the matched text. -/
def matchDMYAt : List Char → Option (Nat × Nat × Nat)
  | a :: b :: rest =>
      if a.isDigit then
        if b.isDigit then
          match rest with
          | '-' :: rest2 => (parseMY rest2).map (fun p => (num2 a b, p.1, p.2))
          | _ => none
        else if b = '-' then (parseMY rest).map (fun p => (digitVal a, p.1, p.2))
        else none
      else none
  | _ => none

/-- Model of `re.findall` reduced to what line 226-227 uses: the leftmost match of
the date pattern, scanning positions left to right. -/
def findDMY : List Char → Option (Nat × Nat × Nat)
  | [] => none
  | c :: cs =>
      match matchDMYAt (c :: cs) with
      | some r => some r
      | none => findDMY cs

/-- The digit fallback of lines 229-234: keep the digit characters of the
string and read them as `DDMMYYYY` when there are exactly 8 of them, else
fail. -/
def digitFallback (cs : List Char) : Option PyDate :=
  match cs.filter Char.isDigit with
  | [d1, d2, m1, m2, y1, y2, y3, y4] =>
      strptimeDMY (num2 d1 d2) (num2 m1 m2) (num4 y1 y2 y3 y4)
  | _ => none

/-- The year-range rejection of lines 237-238. -/
def yearFilter (parsed : Option PyDate) : Option PyDate :=
  match parsed with
  | none => none
  | some dt => if dt.year < 1910 ∨ 2100 < dt.year then none else some dt

/-- The method `extract_date` (lines 218-242): empty string fails; else prefer the
leftmost `D(D)-M(M)-YYYY` pattern; else fall back to the 8-digit run; a
`strptime` failure yields `None` without any further fallback; finally
reject years outside `[1910, 2100]`. -/
def extract_date (date_string : String) : Option PyDate :=
  if pyIsEmpty date_string then none
  else
    yearFilter
      (match findDMY date_string.data with
       | some (d, m, y) => strptimeDMY d m y
       | none => digitFallback date_string.data)

/-! ### Occupation gazetteer: `normalize_occupation` (lines 244-268) -/

def occupation_mapping : List (String × String × Nat) :=
  [("mengurus rumah tangga", "Mengurus Rumah Tangga", 6),
   ("buruh harian lepas", "Buruh Harian Lepas", 6),
   ("pegawai negeri sipil", "Pegawai Negeri Sipil", 5),
   ("pelajar/mahasiswa", "Pelajar/Mahasiswa", 4),
   ("pelajar/mhs", "Pelajar/Mahasiswa", 3),
   ("belum/tidak bekerja", "Belum/Tidak Bekerja", 5),
   ("karyawan swasta", "Karyawan Swasta", 4),
   ("pegawai negeri", "Pegawai Negeri", 4),
   ("wiraswasta", "Wiraswasta", 3),
   ("peg negeri", "Pegawai Negeri", 3),
   ("peg swasta", "Pegawai Swasta", 3)]

def occLookup : List (String × String × Nat) → String → Option String
  | [], _ => none
  | (k, v, tol) :: rest, l =>
      if levenshtein k l ≤ tol then some v else occLookup rest l

/-- The method `normalize_occupation` (lines 244-268), lifted to the optional value it
is applied to on line 348: a falsy input (absent or empty) is returned
unchanged; otherwise the first table entry within its tolerance of the
lowercased input wins, and an unmatched input passes through. -/
def normalize_occupation (occ : Option String) : Option String :=
  match occ with
  | none => none
  | some s =>
      if pyIsEmpty s then some s
      else some ((occLookup occupation_mapping (pyLower s)).getD s)

/-! ### Record normalizer: `_process_extracted_data` (lines 295-365) -/

/-- Python truthiness of an optional string: `None` and the empty string
are falsy. -/
def pyTruthy : Option String → Bool
  | none => false
  | some s => !pyIsEmpty s

/-- Model of `raw_result.get(key)`: the raw field map is the association list built
by the extraction loop, and a missing key reads as `None`. -/
def rawGet (raw : List (String × Option String)) (k : String) : Option String :=
  match raw.lookup k with
  | some v => v
  | none => none

/-- Match the regex `[/\\]\s*[TtIi]gl\s*` (line 328) at the head of the
character list, returning the remainder after the match.  The greedy
`\s*` needs no backtracking because a whitespace character can never start
the following `[TtIi]gl` literal. -/
def matchTglAt : List Char → Option (List Char)
  | [] => none
  | c :: rest =>
      if c = '/' ∨ c = '\\' then
        match rest.dropWhile Char.isWhitespace with
        | t :: g :: l :: rest2 =>
            if (t = 'T' ∨ t = 't' ∨ t = 'I' ∨ t = 'i') ∧ g = 'g' ∧ l = 'l' then
              some (rest2.dropWhile Char.isWhitespace)
            else none
        | _ => none
      else none

/-- Model of `re.sub` of that pattern with the empty replacement, scanning left to
right and resuming after each removed match.  The fuel argument starts at
the length of the list; every step consumes at least one character, so the
fuel never runs out. -/
def subTglFuel : Nat → List Char → List Char
  | 0, cs => cs
  | _ + 1, [] => []
  | n + 1, c :: cs =>
      match matchTglAt (c :: cs) with
      | some rest => subTglFuel n rest
      | none => c :: subTglFuel n cs

def subTgl (s : String) : String := String.mk (subTglFuel s.data.length s.data)

/-- The method `_process_extracted_data` (lines 295-365): build the final record from
the raw field map. -/
def process_extracted_data (raw : List (String × Option String)) : KTPData :=
  let nik :=
    if pyTruthy (rawGet raw "nik") then
      some (String.mk (((rawGet raw "nik").getD "").data.filter Char.isDigit))
    else none
  let nama :=
    if pyTruthy (rawGet raw "nama") then
      some (pyTrim (pyReplace (String.mk (((rawGet raw "nama").getD "").data.filter
        (fun c => !c.isDigit))) "-" ""))
    else none
  let jk :=
    if rawGet raw "jenis_kelamin" = some "LAKI-LAKI" then some "LAKI-LAKI"
    else if rawGet raw "jenis_kelamin" = some "WANITA" ∨
        rawGet raw "jenis_kelamin" = some "PEREMPUAN" then some "PEREMPUAN"
    else none
  let ttlPair : Option String × Option PyDate :=
    if pyTruthy (rawGet raw "ttl") then
      let s := (rawGet raw "ttl").getD ""
      let ttls := pySplit s ", "
      if 2 ≤ ttls.length then
        (some (ttls.getD 0 ""), extract_date (ttls.getD 1 ""))
      else if ttls.length = 1 then
        (some (ttls.getD 0 ""), extract_date s)
      else (none, none)
    else (none, none)
  let tempat :=
    match ttlPair.1 with
    | none => none
    | some t =>
        if !pyIsEmpty t then
          some (pyUpper (pyTrim (String.mk ((subTgl t).data.filter
            (fun c => c.isAlpha || c.isWhitespace)))))
        else some t
  let kwn :=
    if rawGet raw "kewarganegaraan" = some "WNI" then some "INDONESIA"
    else rawGet raw "kewarganegaraan"
  let sp :=
    match rawGet raw "status_perkawinan" with
    | none => none
    | some ms =>
        if !pyIsEmpty ms then
          let l := pyLower ms
          if levenshtein "belum kawin" l ≤ 2 ∨ levenshtein "tidak kawin" l ≤ 2 then
            some "BELUM KAWIN"
          else if levenshtein "kawin" l ≤ 1 then some "KAWIN"
          else if levenshtein "janda" l ≤ 2 ∨ levenshtein "duda" l ≤ 2 ∨
              levenshtein "cerai" l ≤ 2 then some "CERAI"
          else none
        else none
  let gd :=
    if pyTruthy (rawGet raw "gol_darah") then
      let bt := pyTrim (String.mk (((rawGet raw "gol_darah").getD "").data.filter
        (fun c => !c.isDigit)))
      if pyLower bt = "a" ∨ pyLower bt = "b" ∨ pyLower bt = "ab" ∨ pyLower bt = "o" then
        some (pyUpper bt)
      else none
    else none
  { nik := nik
    nama := nama
    tempat_lahir := tempat
    tanggal_lahir := ttlPair.2
    jenis_kelamin := jk
    golongan_darah := gd
    alamat := rawGet raw "alamat"
    rt_rw := rawGet raw "rt_rw"
    kelurahan_desa := rawGet raw "kel_desa"
    kecamatan := rawGet raw "kecamatan"
    agama := rawGet raw "agama"
    status_perkawinan := sp
    pekerjaan := normalize_occupation (rawGet raw "pekerjaan")
    kewarganegaraan := kwn
    berlaku_hingga := rawGet raw "berlaku_hingga"
    provinsi := rawGet raw "provinsi"
    kota := rawGet raw "kota" }

/-! ### Driver: `extract_ktp_data` (lines 270-293) -/

/-- The fixed 16-entry field specification table (lines 33-50), in source
order: (field name, keyword, typo tolerance). -/
def fields_config : List (String × String × Nat) :=
  [("provinsi", "provinsi", 2),
   ("kota", "kabupaten", 2),
   ("nik", "nik", 1),
   ("nama", "nama", 2),
   ("ttl", "tempat/tgl", 5),
   ("jenis_kelamin", "kelamin", 3),
   ("gol_darah", "darah", 3),
   ("alamat", "alamat", 2),
   ("rt_rw", "rt/rw", 3),
   ("kel_desa", "kel/desa", 4),
   ("kecamatan", "kecamatan", 3),
   ("agama", "agama", 3),
   ("status_perkawinan", "perkawinan", 4),
   ("pekerjaan", "pekerjaan", 4),
   ("kewarganegaraan", "kewarganegaraan", 4),
   ("berlaku_hingga", "berlaku", 4)]

/-- The extraction loop of lines 282-291: resolve the fields in table
order, threading `self.max_x`, stripping the literal `": "` and `":"`
from every truthy resolved value, and propagating the `ValueError` that a
resolver may raise. -/
def runFields (angleOk : Token → Token → Bool) (ls_word : List Token) :
    List (String × String × Nat) → Int → List (String × Option String) →
    Except Unit (List (String × Option String)) × Int
  | [], maxX, acc => (.ok acc, maxX)
  | (fn, kw, tol) :: rest, maxX, acc =>
      match get_attribute_ktp angleOk maxX ls_word fn kw tol with
      | (.error e, m) => (.error e, m)
      | (.ok v, m) =>
          let v' :=
            match v with
            | none => none
            | some s =>
                if pyIsEmpty s then some s
                else some (pyReplace (pyReplace s ": " "") ":" "")
          runFields angleOk ls_word rest m (acc ++ [(fn, v')])

/-- The method `extract_ktp_data` (lines 270-293): normalize the response, return the
all-default record on an empty token list, otherwise reset `self.max_x`
to the sentinel `9999` (line 277) and run the field loop followed by the
record normalizer.  The `Int` argument is the value of `self.max_x` left
by earlier activity on the same extractor object; a fresh extractor starts
at `9999` (line 51). -/
def extract_ktp_data (angleOk : Token → Token → Bool) (maxX : Int)
    (resp : TextResponse) : Except Unit KTPData × Int :=
  let ls_word := convert_format resp
  if ls_word.isEmpty then (.ok {}, maxX)
  else
    match runFields angleOk ls_word fields_config 9999 [] with
    | (.error e, m) => (.error e, m)
    | (.ok raw, m) => (.ok (process_extracted_data raw), m)

/-! ### Concrete inputs used in the theorems below -/

/-- An axis-aligned token box, used to build concrete token lists. -/
def mkTok (l : String) (a b : Int) : Token :=
  { label := l, x1 := a, y1 := b, x2 := a + 50, y2 := b, x3 := a + 50, y3 := b + 20,
    x4 := a, y4 := b + 20, w := 50, h := 20 }

/-- The vertex list PaddleOCRService attaches to the whole-image aggregate
entry it inserts first (paddle_ocr_service.py lines 67-80). -/
def aggVerts : List Vertex :=
  [⟨some 0, some 0⟩, ⟨some 1000, some 0⟩, ⟨some 1000, some 1000⟩, ⟨some 0, some 1000⟩]

/-- A whole-image aggregate first entry in the provider convention. -/
def aggEntry : AnnEntry :=
  ⟨"PROVINSI JAWA BARAT NIK 3204123456789012", some ⟨some aggVerts⟩⟩

def wordVerts : List Vertex :=
  [⟨some 10, some 20⟩, ⟨some 110, some 20⟩, ⟨some 110, some 50⟩, ⟨some 10, some 50⟩]

/-- An ordinary single-word entry. -/
def wordEntry : AnnEntry := ⟨"PROVINSI", some ⟨some wordVerts⟩⟩

/-- A provider response whose first entry is the whole-image aggregate. -/
def respAgg : TextResponse := ⟨some [aggEntry, wordEntry]⟩

/-- The token `convert_format` builds from the aggregate entry. -/
def aggTok : Token := tokenOfEntry aggEntry.description aggVerts

/-- A response without the `textAnnotations` key. -/
def respNone : TextResponse := ⟨none⟩

/-- A response in which every entry is malformed: no `boundingPoly`, no
`vertices`, or fewer than four vertices. -/
def respMalformed : TextResponse :=
  ⟨some [⟨"KTP", none⟩, ⟨"INDONESIA", some ⟨none⟩⟩,
         ⟨"X", some ⟨some [⟨some 1, some 2⟩, ⟨some 3, some 4⟩]⟩⟩]⟩

/-- A response whose only token has the label `JAWA`, which the `nama`
pre-filter removes. -/
def respJawa : TextResponse := ⟨some [⟨"JAWA", some ⟨some wordVerts⟩⟩]⟩

/-! ### Claim theorems -/

/-- Claim C9 (failing-input evaluation): the edit-distance function of the
source is not symmetric.  On the pair `aabba`, `bbacc` the row update that
numpy evaluates without intra-row propagation returns `5`, while the
swapped call returns `4` (which is also the true edit distance); the
claimed identity `distance(a,b) = distance(b,a)` fails on the code. -/
theorem levenshtein_asymmetric_eval :
    levenshtein "aabba" "bbacc" = 5 ∧ levenshtein "bbacc" "aabba" = 4 := by decide

/-- Claim C1 (failing-input evaluation): resolving the `nama` field on a
token list whose only label is `JAWA` empties the list in the pre-filter
after the top empty-guard has passed, so `np.min` is applied to an empty
distance list and raises `ValueError` instead of returning a string or
null; the exception propagates out of `extract_ktp_data`. -/
theorem nama_prefilter_empty_raises :
    get_attribute_ktp (fun _ _ => true) 9999 [mkTok "JAWA" 10 20] "nama" "nama" 2 =
      (.error (), 9999) ∧
    extract_ktp_data (fun _ _ => true) 9999 respJawa = (.error (), 9999) := by decide

/-- Claim C2 (counterexample): on a response whose first entry is the
whole-image aggregate in the provider convention, the token built from
that aggregate entry is a member of the normalized token sequence (indeed
its first element), contradicting the claim that it is excluded from the
sequence used for keyword search. -/
theorem aggregate_token_not_excluded :
    aggTok ∈ convert_format respAgg ∧
    (convert_format respAgg).head? = some aggTok ∧
    aggTok.label = "PROVINSI JAWA BARAT NIK 3204123456789012" := by decide

/-- Claim C2 (amended): `convert_format` excludes nothing but malformed
entries: for every response whose first `textAnnotations` entry carries at
least four vertices, the token built from that first (by convention,
whole-image aggregate) entry is the first element of the normalized token
sequence used for keyword search. -/
theorem convert_format_keeps_first_entry (resp : TextResponse) (a : AnnEntry)
    (rest : List AnnEntry) (poly : BoundingPoly) (vs : List Vertex)
    (h1 : resp.textAnnotations = some (a :: rest))
    (h2 : a.boundingPoly = some poly) (h3 : poly.vertices = some vs)
    (h4 : ¬vs.length < 4) :
    (convert_format resp).head? = some (tokenOfEntry a.description vs) := by
  simp [convert_format, h1, h2, h3, h4]

/-- Witness for the amended claim C2, at the concrete aggregate-first
response. -/
theorem convert_format_keeps_first_entry_witness :
    (convert_format respAgg).head? = some aggTok :=
  convert_format_keeps_first_entry respAgg aggEntry [wordEntry] ⟨some aggVerts⟩ aggVerts
    rfl rfl rfl (by decide)

/-- Claim C4: the NIK right-edge threshold is reset to the unbounded
sentinel `9999` at the start of every extraction, so the record produced
for a response does not depend on the threshold state left on the
extractor by earlier calls; in particular running extraction on `A` and
then on `B` with the same extractor yields for `B` exactly the record of a
fresh extractor (whose constructor sets the threshold to `9999`). -/
theorem extract_state_independent :
    (∀ (angleOk : Token → Token → Bool) (s s' : Int) (resp : TextResponse),
      (extract_ktp_data angleOk s resp).1 = (extract_ktp_data angleOk s' resp).1) ∧
    (∀ (angleOk : Token → Token → Bool) (s : Int) (A B : TextResponse),
      (extract_ktp_data angleOk (extract_ktp_data angleOk s A).2 B).1 =
        (extract_ktp_data angleOk 9999 B).1) := by
  have h : ∀ (angleOk : Token → Token → Bool) (s s' : Int) (resp : TextResponse),
      (extract_ktp_data angleOk s resp).1 = (extract_ktp_data angleOk s' resp).1 := by
    intro angleOk s s' resp
    by_cases hc : (convert_format resp).isEmpty <;> simp [extract_ktp_data, hc]
  exact ⟨h, fun angleOk s A B => h angleOk _ _ B⟩

/-- Claim C5: whenever normalization discards every provider entry (a
missing `textAnnotations` key, an empty list, or only malformed entries),
`extract_ktp_data` returns the default record, in which all 17 fields are
null, and raises nothing. -/
theorem empty_tokens_all_null (angleOk : Token → Token → Bool) (maxX : Int)
    (resp : TextResponse) (h : convert_format resp = []) :
    extract_ktp_data angleOk maxX resp = (.ok {}, maxX) ∧
    ({} : KTPData).nik = none ∧ ({} : KTPData).nama = none ∧
    ({} : KTPData).tempat_lahir = none ∧ ({} : KTPData).tanggal_lahir = none ∧
    ({} : KTPData).jenis_kelamin = none ∧ ({} : KTPData).golongan_darah = none ∧
    ({} : KTPData).alamat = none ∧ ({} : KTPData).rt_rw = none ∧
    ({} : KTPData).kelurahan_desa = none ∧ ({} : KTPData).kecamatan = none ∧
    ({} : KTPData).agama = none ∧ ({} : KTPData).status_perkawinan = none ∧
    ({} : KTPData).pekerjaan = none ∧ ({} : KTPData).kewarganegaraan = none ∧
    ({} : KTPData).berlaku_hingga = none ∧ ({} : KTPData).provinsi = none ∧
    ({} : KTPData).kota = none := by
  refine ⟨?_, rfl, rfl, rfl, rfl, rfl, rfl, rfl, rfl, rfl, rfl, rfl, rfl, rfl,
    rfl, rfl, rfl, rfl⟩
  simp [extract_ktp_data, h]

/-- Witness for claim C5: a response without the `textAnnotations` key and
a response in which every entry is malformed both produce the all-null
record without an error. -/
theorem empty_tokens_all_null_witness :
    convert_format respNone = [] ∧ convert_format respMalformed = [] ∧
    extract_ktp_data (fun _ _ => true) 9999 respNone = (.ok {}, 9999) ∧
    extract_ktp_data (fun _ _ => false) 123 respMalformed = (.ok {}, 123) :=
  ⟨by decide, by decide,
   (empty_tokens_all_null (fun _ _ => true) 9999 respNone (by decide)).1,
   (empty_tokens_all_null (fun _ _ => false) 123 respMalformed (by decide)).1⟩

/-- The distance list has one entry per token, so it is empty only for an
empty token list. -/
theorem distList_eq_nil_iff (kw : String) (ws : List Token) :
    distList kw ws = [] ↔ ws = [] := by
  cases ws with
  | nil => simp [distList]
  | cons w ws' =>
      unfold distList
      split <;> simp

/-- Claim C3: whenever the `kewarganegaraan` label is located within
tolerance and at least one value token survives collection and filtering,
the resolver returns `WNI` regardless of the actual distances of the value
tokens to `wni` (the source only tests that the distance list is
nonempty), and the record normalizer then maps `WNI` to `INDONESIA`. -/
theorem kewarganegaraan_wni_indonesia :
    (∀ (angleOk : Token → Token → Bool) (maxX : Int) (ws : List Token)
        (kw : String) (tol : Nat), ws ≠ [] →
        listMin (distList kw ws) ≤ tol →
        collectValues angleOk ws (anchorToken kw ws) ≠ [] →
        getAttrCore angleOk maxX ws "kewarganegaraan" kw tol =
          (.value (some "WNI"), maxX)) ∧
    (∀ raw, rawGet raw "kewarganegaraan" = some "WNI" →
        (process_extracted_data raw).kewarganegaraan = some "INDONESIA") := by
  constructor
  · intro angleOk maxX ws kw tol h1 hm h3
    have hne : ws.isEmpty = false := by simp [List.isEmpty_iff, h1]
    have hfil : namaFilter "kewarganegaraan" ws = ws := by simp [namaFilter]
    have hd : (distList kw ws).isEmpty = false := by
      simp [List.isEmpty_iff, distList_eq_nil_iff, h1]
    have hnlt : ¬ tol < listMin (distList kw ws) := not_lt.mpr hm
    have hmap : (collectValues angleOk ws (anchorToken kw ws)).map
        (fun v => levenshtein "wni" (pyLower v.label)) ≠ [] := by
      simpa using h3
    simp [getAttrCore, hfil, hne, hd, hnlt, kwnResolve, anchorToken,
      List.isEmpty_iff, hmap]
    intro hc
    exact absurd hc (by simpa [anchorToken] using h3)
  · intro raw h
    simp [process_extracted_data, h]

/-- Witness for claim C3: a token list with the exact label and one value
token, and a raw map carrying `WNI`. -/
theorem kewarganegaraan_wni_indonesia_witness :
    getAttrCore (fun _ _ => true) 9999 [mkTok "kewarganegaraan" 0 0, mkTok "WNI" 300 0]
      "kewarganegaraan" "kewarganegaraan" 4 = (.value (some "WNI"), 9999) ∧
    (process_extracted_data [("kewarganegaraan", some "WNI")]).kewarganegaraan =
      some "INDONESIA" :=
  ⟨kewarganegaraan_wni_indonesia.1 (fun _ _ => true) 9999
      [mkTok "kewarganegaraan" 0 0, mkTok "WNI" 300 0] "kewarganegaraan" 4
      (by decide) (by decide) (by decide),
   kewarganegaraan_wni_indonesia.2 [("kewarganegaraan", some "WNI")] (by decide)⟩

/-- For a field other than `nama`, a nonempty token list whose minimal
distance exceeds the tolerance makes the resolver body report a missing
label (line 110 of the source before the kota retry is considered). -/
theorem getAttrCore_notfound (angleOk : Token → Token → Bool) (maxX : Int)
    (ws : List Token) (fn kw : String) (tol : Nat) (hfn : fn ≠ "nama")
    (h1 : ws ≠ []) (hm : tol < listMin (distList kw ws)) :
    getAttrCore angleOk maxX ws fn kw tol = (.labelNotFound, maxX) := by
  have hne : ws.isEmpty = false := by simp [List.isEmpty_iff, h1]
  have hfil : namaFilter fn ws = ws := by simp [namaFilter, hfn]
  have hd : (distList kw ws).isEmpty = false := by
    simp [List.isEmpty_iff, distList_eq_nil_iff, h1]
  simp [getAttrCore, hfil, hne, hd, hm]

/-- When the `kota` label is located within tolerance, the resolver body
returns the joined value labels behind the `KABUPATEN ` or `KOTA ` marker
chosen by the keyword in use, leaving the threshold unchanged. -/
theorem getAttrCore_kota_found (angleOk : Token → Token → Bool) (maxX : Int)
    (ws : List Token) (kw : String) (tol : Nat)
    (h1 : ws ≠ []) (hm : listMin (distList kw ws) ≤ tol) :
    getAttrCore angleOk maxX ws "kota" kw tol =
      (.value (some ((if kw = "kabupaten" then "KABUPATEN " else "KOTA ") ++
        pyTrim (pyJoin " "
          ((collectValues angleOk ws (anchorToken kw ws)).map (fun v => v.label))))),
       maxX) := by
  have hne : ws.isEmpty = false := by simp [List.isEmpty_iff, h1]
  have hfil : namaFilter "kota" ws = ws := by simp [namaFilter]
  have hd : (distList kw ws).isEmpty = false := by
    simp [List.isEmpty_iff, distList_eq_nil_iff, h1]
  have hnlt : ¬ tol < listMin (distList kw ws) := not_lt.mpr hm
  by_cases hkw : kw = "kabupaten"
  · subst hkw
    simp [getAttrCore, hfil, hne, hd, hnlt, anchorToken]
  · simp [getAttrCore, hfil, hne, hd, hnlt, anchorToken, hkw]

/-- Claim C7: when the global minimum distance against `kabupaten` exceeds
the tolerance `2`, the `kota` resolution is exactly the resolution with
keyword `kota` and tolerance `1` (one bounded fallback step: a second
failure yields not-found rather than further retries), and the resolved
value carries the `KABUPATEN ` marker exactly when the resolved keyword
was `kabupaten`, and the `KOTA ` marker when the retry keyword resolved. -/
theorem kota_retry_spec :
    (∀ (angleOk : Token → Token → Bool) (maxX : Int) (ws : List Token),
        2 < listMin (distList "kabupaten" ws) →
        get_attribute_ktp angleOk maxX ws "kota" "kabupaten" 2 =
          get_attribute_ktp angleOk maxX ws "kota" "kota" 1) ∧
    (∀ (angleOk : Token → Token → Bool) (maxX : Int) (ws : List Token), ws ≠ [] →
        2 < listMin (distList "kabupaten" ws) → 1 < listMin (distList "kota" ws) →
        get_attribute_ktp angleOk maxX ws "kota" "kabupaten" 2 = (.ok none, maxX)) ∧
    (∀ (angleOk : Token → Token → Bool) (maxX : Int) (ws : List Token), ws ≠ [] →
        2 < listMin (distList "kabupaten" ws) → listMin (distList "kota" ws) ≤ 1 →
        ∃ r, get_attribute_ktp angleOk maxX ws "kota" "kabupaten" 2 =
          (.ok (some ("KOTA " ++ r)), maxX)) ∧
    (∀ (angleOk : Token → Token → Bool) (maxX : Int) (ws : List Token), ws ≠ [] →
        listMin (distList "kabupaten" ws) ≤ 2 →
        ∃ r, get_attribute_ktp angleOk maxX ws "kota" "kabupaten" 2 =
          (.ok (some ("KABUPATEN " ++ r)), maxX)) := by
  have retryEq : ∀ (angleOk : Token → Token → Bool) (maxX : Int) (ws : List Token),
      2 < listMin (distList "kabupaten" ws) →
      get_attribute_ktp angleOk maxX ws "kota" "kabupaten" 2 =
        get_attribute_ktp angleOk maxX ws "kota" "kota" 1 := by
    intro angleOk maxX ws h
    by_cases h1 : ws = []
    · subst h1; simp [get_attribute_ktp, getAttrCore]
    · have hnf := getAttrCore_notfound angleOk maxX ws "kota" "kabupaten" 2
        (by decide) h1 h
      unfold get_attribute_ktp
      rw [hnf]
      rcases hr : getAttrCore angleOk maxX ws "kota" "kota" 1 with ⟨res, mm⟩
      cases res <;> simp [hr]
  refine ⟨retryEq, ?_, ?_, ?_⟩
  · intro angleOk maxX ws h1 hk hk2
    rw [retryEq angleOk maxX ws hk]
    have hnf := getAttrCore_notfound angleOk maxX ws "kota" "kota" 1 (by decide) h1 hk2
    simp [get_attribute_ktp, hnf]
  · intro angleOk maxX ws h1 hk hk2
    rw [retryEq angleOk maxX ws hk]
    have hf := getAttrCore_kota_found angleOk maxX ws "kota" 1 h1 hk2
    exact ⟨pyTrim (pyJoin " "
        ((collectValues angleOk ws (anchorToken "kota" ws)).map (fun v => v.label))),
      by simp [get_attribute_ktp, hf]⟩
  · intro angleOk maxX ws h1 hm
    have hf := getAttrCore_kota_found angleOk maxX ws "kabupaten" 2 h1 hm
    exact ⟨pyTrim (pyJoin " "
        ((collectValues angleOk ws (anchorToken "kabupaten" ws)).map (fun v => v.label))),
      by simp [get_attribute_ktp, hf]⟩

/-- Witness for claim C7: one token list resolving on the primary keyword,
one resolving only on the retry keyword, and one failing both steps. -/
theorem kota_retry_spec_witness :
    get_attribute_ktp (fun _ _ => false) 9999 [mkTok "kota" 5 5] "kota" "kabupaten" 2 =
      get_attribute_ktp (fun _ _ => false) 9999 [mkTok "kota" 5 5] "kota" "kota" 1 ∧
    get_attribute_ktp (fun _ _ => false) 9999 [mkTok "xyzqw" 5 5] "kota" "kabupaten" 2 =
      (.ok none, 9999) ∧
    (∃ r, get_attribute_ktp (fun _ _ => false) 9999 [mkTok "kota" 5 5] "kota" "kabupaten" 2 =
      (.ok (some ("KOTA " ++ r)), 9999)) ∧
    (∃ r, get_attribute_ktp (fun _ _ => false) 9999 [mkTok "kabupaten" 5 5] "kota" "kabupaten" 2 =
      (.ok (some ("KABUPATEN " ++ r)), 9999)) :=
  ⟨kota_retry_spec.1 (fun _ _ => false) 9999 [mkTok "kota" 5 5] (by decide),
   kota_retry_spec.2.1 (fun _ _ => false) 9999 [mkTok "xyzqw" 5 5] (by decide)
     (by decide) (by decide),
   kota_retry_spec.2.2.1 (fun _ _ => false) 9999 [mkTok "kota" 5 5] (by decide)
     (by decide) (by decide),
   kota_retry_spec.2.2.2 (fun _ _ => false) 9999 [mkTok "kabupaten" 5 5] (by decide)
     (by decide)⟩

/-- Claim C10: whenever the `kota` label is located (on either keyword
attempt), the resolver produces a non-null string behind a `KABUPATEN ` or
`KOTA ` marker even when no value token survives collection; in that empty
case the result is exactly the marker with its trailing space, so the
generic empty-result-means-not-found rule never applies to `kota`; the
record normalizer passes the `kota` raw value through unchanged. -/
theorem kota_value_nonnull_spec :
    (∀ (angleOk : Token → Token → Bool) (maxX : Int) (ws : List Token)
        (kw : String) (tol : Nat), ws ≠ [] → listMin (distList kw ws) ≤ tol →
        ∃ s, getAttrCore angleOk maxX ws "kota" kw tol = (.value (some s), maxX) ∧
          ((∃ r, s = "KABUPATEN " ++ r) ∨ (∃ r, s = "KOTA " ++ r)) ∧
          (collectValues angleOk ws (anchorToken kw ws) = [] →
            s = "KABUPATEN " ∨ s = "KOTA ")) ∧
    (∀ (raw : List (String × Option String)) (s : String),
        rawGet raw "kota" = some s → (process_extracted_data raw).kota = some s) := by
  constructor
  · intro angleOk maxX ws kw tol h1 hm
    refine ⟨(if kw = "kabupaten" then "KABUPATEN " else "KOTA ") ++
      pyTrim (pyJoin " "
        ((collectValues angleOk ws (anchorToken kw ws)).map (fun v => v.label))),
      getAttrCore_kota_found angleOk maxX ws kw tol h1 hm, ?_, ?_⟩
    · by_cases hkw : kw = "kabupaten" <;> simp [hkw]
    · intro hc
      rw [hc]
      by_cases hkw : kw = "kabupaten" <;> simp [hkw, pyJoin, pyTrim]
  · intro raw s h
    simp [process_extracted_data, h]

/-- Witness for claim C10: a single-token list whose only token is the
label itself and a collector verdict that keeps nothing, giving exactly
`KABUPATEN ` with its trailing space. -/
theorem kota_value_nonnull_spec_witness :
    (∃ s, getAttrCore (fun _ _ => false) 9999 [mkTok "kabupaten" 5 5] "kota" "kabupaten" 2 =
        (.value (some s), 9999) ∧
      ((∃ r, s = "KABUPATEN " ++ r) ∨ (∃ r, s = "KOTA " ++ r)) ∧
      (collectValues (fun _ _ => false) [mkTok "kabupaten" 5 5]
          (anchorToken "kabupaten" [mkTok "kabupaten" 5 5]) = [] →
        s = "KABUPATEN " ∨ s = "KOTA ")) ∧
    (process_extracted_data [("kota", some "KABUPATEN BANDUNG")]).kota =
      some "KABUPATEN BANDUNG" :=
  ⟨kota_value_nonnull_spec.1 (fun _ _ => false) 9999 [mkTok "kabupaten" 5 5]
      "kabupaten" 2 (by decide) (by decide),
   kota_value_nonnull_spec.2 [("kota", some "KABUPATEN BANDUNG")]
      "KABUPATEN BANDUNG" (by decide)⟩

/-- Packing a valid codepoint and reading it back is the identity. -/
theorem char_toNat_ofNat_valid {n : Nat} (h : n.isValidChar) :
    (Char.ofNat n).toNat = n := by
  simp [Char.ofNat, h, Char.ofNatAux, Char.toNat, UInt32.toNat, BitVec.toNat_ofNatLt]

/-- Upper-casing after lower-casing is plain upper-casing (basic latin). -/
theorem toUpper_toLower_char (c : Char) : c.toLower.toUpper = c.toUpper := by
  simp only [Char.toLower, Char.toUpper]
  by_cases h : c.toNat ≥ 65 ∧ c.toNat ≤ 90
  · rw [if_pos h]
    have hv : (c.toNat + 32).isValidChar := Or.inl (by omega)
    have ht : (Char.ofNat (c.toNat + 32)).toNat = c.toNat + 32 :=
      char_toNat_ofNat_valid hv
    rw [ht, if_pos (by omega : c.toNat + 32 ≥ 97 ∧ c.toNat + 32 ≤ 122),
      if_neg (by omega : ¬(c.toNat ≥ 97 ∧ c.toNat ≤ 122))]
    have h32 : c.toNat + 32 - 32 = c.toNat := by omega
    rw [h32, Char.ofNat_toNat]
  · rw [if_neg h]

/-- Lifting the previous lemma to strings. -/
theorem pyUpper_pyLower (s : String) : pyUpper (pyLower s) = pyUpper s := by
  simp only [pyUpper, pyLower, List.map_map]
  exact congrArg String.mk (List.map_congr_left (fun c _ => toUpper_toLower_char c))

/-- A string whose lower-case form is one of `a`, `b`, `ab`, `o` has
upper-case form `A`, `B`, `AB` or `O`. -/
theorem upper_of_lower_cases (bt : String)
    (h : pyLower bt = "a" ∨ pyLower bt = "b" ∨ pyLower bt = "ab" ∨ pyLower bt = "o") :
    pyUpper bt = "A" ∨ pyUpper bt = "B" ∨ pyUpper bt = "AB" ∨ pyUpper bt = "O" := by
  have key : pyUpper bt = pyUpper (pyLower bt) := (pyUpper_pyLower bt).symm
  rcases h with h | h | h | h
  · exact Or.inl (by rw [key, h]; decide)
  · exact Or.inr (Or.inl (by rw [key, h]; decide))
  · exact Or.inr (Or.inr (Or.inl (by rw [key, h]; decide)))
  · exact Or.inr (Or.inr (Or.inr (by rw [key, h]; decide)))

/-- The normalized blood-type field is always null or one of the four
enumeration values, for every raw field map. -/
theorem process_gd_mem (raw : List (String × Option String)) :
    (process_extracted_data raw).golongan_darah = none ∨
    (process_extracted_data raw).golongan_darah = some "A" ∨
    (process_extracted_data raw).golongan_darah = some "B" ∨
    (process_extracted_data raw).golongan_darah = some "AB" ∨
    (process_extracted_data raw).golongan_darah = some "O" := by
  simp only [process_extracted_data]
  split
  · split
    · next hbt =>
        rcases upper_of_lower_cases _ hbt with h | h | h | h <;> simp [h]
    · exact Or.inl rfl
  · exact Or.inl rfl

/-- Claim C8: for every extraction that completes without the `nama`
crash, the `golongan_darah` field of the final record is null or exactly
one of `A`, `B`, `AB`, `O`: digits are stripped from the raw value and the
remaining letters are accepted, case-insensitively, only as one of those
four strings. -/
theorem golongan_darah_enum (angleOk : Token → Token → Bool) (maxX : Int)
    (resp : TextResponse) (d : KTPData) (m : Int)
    (h : extract_ktp_data angleOk maxX resp = (.ok d, m)) :
    d.golongan_darah = none ∨ d.golongan_darah = some "A" ∨
    d.golongan_darah = some "B" ∨ d.golongan_darah = some "AB" ∨
    d.golongan_darah = some "O" := by
  unfold extract_ktp_data at h
  by_cases hc : (convert_format resp).isEmpty
  · simp [hc] at h
    rw [← h.1]
    exact Or.inl rfl
  · simp only [hc, if_neg, Bool.false_eq_true, if_false] at h
    rcases hr : runFields angleOk (convert_format resp) fields_config 9999 [] with ⟨res, mm⟩
    rw [hr] at h
    cases res with
    | error e => simp at h
    | ok raw =>
        simp at h
        rw [← h.1]
        exact process_gd_mem raw

/-- Witness for claim C8, at a response normalizing to no tokens. -/
theorem golongan_darah_enum_witness :
    ({} : KTPData).golongan_darah = none ∨ ({} : KTPData).golongan_darah = some "A" ∨
    ({} : KTPData).golongan_darah = some "B" ∨ ({} : KTPData).golongan_darah = some "AB" ∨
    ({} : KTPData).golongan_darah = some "O" :=
  golongan_darah_enum (fun _ _ => true) 9999 respNone {} 9999 (by decide)

/-- Soundness of the `strptime` model: a successful parse returns exactly
the given components, which form a real calendar date. -/
theorem strptimeDMY_sound {d m y : Nat} {dt : PyDate}
    (h : strptimeDMY d m y = some dt) :
    dt = ⟨y, m, d⟩ ∧ 1 ≤ y ∧ y ≤ 9999 ∧ 1 ≤ m ∧ m ≤ 12 ∧ 1 ≤ d ∧
      d ≤ daysInMonth y m := by
  unfold strptimeDMY at h
  split at h
  · next hc => exact ⟨(Option.some.injEq _ _ ▸ h).symm, hc.1, hc.2.1, hc.2.2.1,
      hc.2.2.2.1, hc.2.2.2.2.1, hc.2.2.2.2.2⟩
  · exact absurd h (by simp)

/-- A leftmost date-pattern match needs at least one character. -/
theorem findDMY_nil : findDMY [] = none := rfl

/-- A successful year filter passes the parse through and bounds its
year. -/
theorem yearFilter_some {o : Option PyDate} {dt : PyDate}
    (h : yearFilter o = some dt) :
    o = some dt ∧ 1910 ≤ dt.year ∧ dt.year ≤ 2100 := by
  rcases o with _ | d
  · exact absurd h (by simp [yearFilter])
  · simp only [yearFilter] at h
    by_cases hy : d.year < 1910 ∨ 2100 < d.year
    · rw [if_pos hy] at h
      exact absurd h (by simp)
    · rw [if_neg hy] at h
      have hd : d = dt := by simpa using h
      subst hd
      exact ⟨rfl, by omega, by omega⟩

/-- A digit run that is not exactly 8 digits long makes the fallback
fail. -/
theorem digitFallback_len_ne {cs : List Char}
    (h : (cs.filter Char.isDigit).length ≠ 8) : digitFallback cs = none := by
  unfold digitFallback
  rcases hl : cs.filter Char.isDigit with
    _ | ⟨c1, _ | ⟨c2, _ | ⟨c3, _ | ⟨c4, _ | ⟨c5, _ | ⟨c6,
      _ | ⟨c7, _ | ⟨c8, _ | ⟨c9, l⟩⟩⟩⟩⟩⟩⟩⟩⟩ <;> simp_all

/-- A successful digit fallback is a successful `strptime`. -/
theorem digitFallback_some {cs : List Char} {dt : PyDate}
    (h : digitFallback cs = some dt) : ∃ d m y, strptimeDMY d m y = some dt := by
  unfold digitFallback at h
  rcases hl : cs.filter Char.isDigit with
    _ | ⟨c1, _ | ⟨c2, _ | ⟨c3, _ | ⟨c4, _ | ⟨c5, _ | ⟨c6,
      _ | ⟨c7, _ | ⟨c8, _ | ⟨c9, l⟩⟩⟩⟩⟩⟩⟩⟩⟩ <;> rw [hl] at h <;>
    first
    | exact ⟨_, _, _, h⟩
    | simp at h

/-- Claim C6: `extract_date` prefers the `D(D)-M(M)-YYYY` pattern; when a
pattern match is present the 8-digit fallback is never consulted, and a
`strptime` failure or an out-of-range year yields null; when no pattern is
present the digit run is read as `DDMMYYYY` only when it has exactly 8
digits; every returned date is a real calendar date with year in
`[1910, 2100]`; the empty string yields null; no branch raises. -/
theorem extract_date_spec (s : String) :
    (pyIsEmpty s = true → extract_date s = none) ∧
    (∀ d m y dt, findDMY s.data = some (d, m, y) → strptimeDMY d m y = some dt →
      1910 ≤ dt.year → dt.year ≤ 2100 → extract_date s = some dt) ∧
    (∀ d m y, findDMY s.data = some (d, m, y) → strptimeDMY d m y = none →
      extract_date s = none) ∧
    (∀ d m y dt, findDMY s.data = some (d, m, y) → strptimeDMY d m y = some dt →
      (dt.year < 1910 ∨ 2100 < dt.year) → extract_date s = none) ∧
    (findDMY s.data = none → (s.data.filter Char.isDigit).length ≠ 8 →
      extract_date s = none) ∧
    (∀ d1 d2 m1 m2 y1 y2 y3 y4 dt, findDMY s.data = none →
      s.data.filter Char.isDigit = [d1, d2, m1, m2, y1, y2, y3, y4] →
      strptimeDMY (num2 d1 d2) (num2 m1 m2) (num4 y1 y2 y3 y4) = some dt →
      1910 ≤ dt.year → dt.year ≤ 2100 → extract_date s = some dt) ∧
    (∀ dt, extract_date s = some dt → 1910 ≤ dt.year ∧ dt.year ≤ 2100 ∧
      1 ≤ dt.month ∧ dt.month ≤ 12 ∧ 1 ≤ dt.day ∧
      dt.day ≤ daysInMonth dt.year dt.month) := by
  refine ⟨?_, ?_, ?_, ?_, ?_, ?_, ?_⟩
  · intro he
    simp [extract_date, he]
  · intro d m y dt h1 h2 h3 h4
    have he : pyIsEmpty s = false := by
      cases hs : s.data with
      | nil => rw [hs] at h1; exact absurd h1 (by simp [findDMY_nil])
      | cons c cs => simp [pyIsEmpty, hs]
    simp [extract_date, he, h1, h2, yearFilter]
    omega
  · intro d m y h1 h2
    have he : pyIsEmpty s = false := by
      cases hs : s.data with
      | nil => rw [hs] at h1; exact absurd h1 (by simp [findDMY_nil])
      | cons c cs => simp [pyIsEmpty, hs]
    simp [extract_date, he, h1, h2, yearFilter]
  · intro d m y dt h1 h2 h3
    have he : pyIsEmpty s = false := by
      cases hs : s.data with
      | nil => rw [hs] at h1; exact absurd h1 (by simp [findDMY_nil])
      | cons c cs => simp [pyIsEmpty, hs]
    simp [extract_date, he, h1, h2, yearFilter]
    omega
  · intro h1 h2
    by_cases he : pyIsEmpty s = true
    · simp [extract_date, he]
    · simp only [Bool.not_eq_true] at he
      simp [extract_date, he, h1, digitFallback_len_ne h2, yearFilter]
  · intro d1 d2 m1 m2 y1 y2 y3 y4 dt h1 h2 h3 h4 h5
    have he : pyIsEmpty s = false := by
      cases hs : s.data with
      | nil => rw [hs] at h2; simp at h2
      | cons c cs => simp [pyIsEmpty, hs]
    have hdf : digitFallback s.data = some dt := by
      unfold digitFallback
      rw [h2]
      exact h3
    simp [extract_date, he, h1, hdf, yearFilter]
    omega
  · intro dt h
    unfold extract_date at h
    split at h
    · exact absurd h (by simp)
    · rcases hp : findDMY s.data with _ | ⟨⟨d, m, y⟩⟩
      · rw [hp] at h
        obtain ⟨ho, hy1, hy2⟩ := yearFilter_some h
        obtain ⟨d, m, y, hst⟩ := digitFallback_some ho
        obtain ⟨hdt, _, _, hm1, hm2, hd1, hd2⟩ := strptimeDMY_sound hst
        subst hdt
        exact ⟨hy1, hy2, hm1, hm2, hd1, hd2⟩
      · rw [hp] at h
        obtain ⟨ho, hy1, hy2⟩ := yearFilter_some h
        obtain ⟨hdt, _, _, hm1, hm2, hd1, hd2⟩ := strptimeDMY_sound ho
        subst hdt
        exact ⟨hy1, hy2, hm1, hm2, hd1, hd2⟩

/-- Witness for claim C6: a well-formed pattern date, a patternless string
with too few digits, an 8-digit run, and an out-of-range year. -/
theorem extract_date_spec_witness :
    extract_date "17-08-1995" = some ⟨1995, 8, 17⟩ ∧
    extract_date "abc12" = none ∧
    extract_date "tgl 31121999" = some ⟨1999, 12, 31⟩ ∧
    extract_date "17-08-1905" = none :=
  ⟨(extract_date_spec "17-08-1995").2.1 17 8 1995 ⟨1995, 8, 17⟩
      (by decide) (by decide) (by decide) (by decide),
   (extract_date_spec "abc12").2.2.2.2.1 (by decide) (by decide),
   (extract_date_spec "tgl 31121999").2.2.2.2.2.1 '3' '1' '1' '2' '1' '9' '9' '9'
      ⟨1999, 12, 31⟩ (by decide) (by decide) (by decide) (by decide) (by decide),
   (extract_date_spec "17-08-1905").2.2.2.1 17 8 1905 ⟨1905, 8, 17⟩
      (by decide) (by decide) (by decide)⟩

end KTPOCR
